import Mathlib

/-!
Shallow embedding of the AddressInput component of the klear repository
(src/unnamed/part_001) and MultiImageInput component
(src/src/components/multiImageInput.tsx), with theorems settling the
frozen claims about suggestion selection, geolocation, manual-input
fallback and multi-image file validation.

Modelling conventions: TypeScript numbers are rationals (ℚ) for
coordinates and naturals (ℕ) for sizes and millisecond counts; a JS
value that may be `undefined`/`null` is an `Option`; a rejected promise
is `Except.error`; the external provider (geocoder, geolocation) is an
oracle passed in as explicit data, and each handler returns the values
it would pass to its callbacks (`onChange`, `setState`, ...) instead of
performing effects.
-/

namespace Klear

/-- Coordinate pair `{lat, lng}` as used throughout AddressInput. -/
structure Position where
  lat : ℚ
  lng : ℚ
deriving DecidableEq

/-- The sentinel coordinate `{lat: 0, lng: 0}` written whenever no resolved
coordinate exists. -/
def sentinelPos : Position := ⟨0, 0⟩

/-- The value bound to the form field: `{address, position}`.
`address = none` models JS `undefined`. -/
structure AddressValue where
  address : Option String
  position : Position
deriving DecidableEq

/-- The `PlaceOption` interface of AddressInput (part_001 lines 52-55). -/
structure PlaceOption where
  description : String
  placeId : String
deriving DecidableEq

/-- One result of `geocodeByPlaceId`. `location = none` models an absent
`geometry?.location?` chain in `response[0].geometry?.location?.toJSON()`. -/
structure GeocodeResult where
  formatted_address : String
  location : Option Position
deriving DecidableEq

/-- Shallow embedding of `handleSelect` (part_001 lines 377-435).
`opt = none` models a null/undefined option; `geocode` is the outcome of
`geocodeByPlaceId option.placeId` (`Except.error` = rejected promise).
The returned `AddressValue` is the argument `handleSelect` passes to
`onChange`; every path calls `onChange` exactly once. -/
def handleSelect (opt : Option PlaceOption)
    (geocode : Except Unit (List GeocodeResult)) : AddressValue :=
  match opt with
  | none =>
      -- `!option?.placeId` with `option?.placeId !== ""`: no valid option
      { address := none, position := sentinelPos }
  | some o =>
      if o.placeId = "" then
        -- empty selection clears the field
        { address := some "", position := sentinelPos }
      else
        match geocode with
        | Except.ok response =>
            match response.head? with
            | some r =>
                { address := some r.formatted_address
                  position := r.location.getD sentinelPos }
            | none =>
                -- fallback: use the description from the option
                { address := some o.description, position := sentinelPos }
        | Except.error _ =>
            -- catch branch: fallback to the description of the option
            { address := some o.description, position := sentinelPos }

/-- Formatted suggestion text pair used inside a `Suggestion`. -/
structure FormattedSuggestion where
  mainText : String
  secondaryText : String
deriving DecidableEq

/-- The `Suggestion` shape AddressInput builds and stores in its
suggestion state (see the synthetic entry at part_001 lines 173-188). -/
structure Suggestion where
  id : String
  active : Bool
  index : ℕ
  formattedSuggestion : FormattedSuggestion
  description : String
  placeId : String
  matchedSubstrings : List String
  terms : List String
  types : List String
deriving DecidableEq

/-- Embedding of the suggestion-state synchronisation effect
(part_001 lines 463-475): with an empty suggestion state the field is set
to `{address: undefined, position: {0,0}}`; otherwise `handleSelect` runs
on the first stored suggestion. -/
def syncFieldFromState (state : List Suggestion)
    (geocode : Except Unit (List GeocodeResult)) : AddressValue :=
  match state with
  | [] => { address := none, position := sentinelPos }
  | s :: _ => handleSelect (some { description := s.description, placeId := s.placeId }) geocode

/-- The `LocationState` union of AddressInput (part_001 lines 57-65). -/
inductive LocationState where
  | idle
  | requesting
  | detecting
  | geocoding
  | success
  | error
  | denied
deriving DecidableEq

/-- Options object passed to `navigator.geolocation.getCurrentPosition`
(part_001 lines 128-132); times in milliseconds. -/
structure GeoOptions where
  enableHighAccuracy : Bool
  timeout : ℕ
  maximumAge : ℕ
deriving DecidableEq

/-- A device position fix (the coordinates of a `GeolocationPosition`). -/
structure GeolocationPosition where
  latitude : ℚ
  longitude : ℚ
deriving DecidableEq

/-- One result of the reverse-geocoding call inside `handleAutoLocation`;
there `results[0].geometry.location` is accessed without optional chaining,
so `location` is not optional, while `place_id` is used as
`results[0].place_id || ""` and may be absent. -/
structure RevGeocodeResult where
  formatted_address : String
  location : Position
  place_id : Option String
deriving DecidableEq

/-- Oracle for one `handleAutoLocation` run: whether `navigator.geolocation`
exists, the outcome of `getCurrentPosition` (`Except.error` = the error
callback fired: permission denied, timeout, ...), and the `(results, status)`
pair the geocoder passes to its callback. -/
structure GeoEnv where
  geolocationSupported : Bool
  positionFix : Except Unit GeolocationPosition
  revStatus : String
  revResults : Option (List RevGeocodeResult)

/-- Observable outcome of one `handleAutoLocation` call: the sequence of
`setLocationState` arguments in order, whether `setHasRequestedLocation(true)`
ran, the argument of `field.onChange` if it was called, the argument of
`setState` if it was called, the options given to `getCurrentPosition` if it
was called, and any user-visible error message (the catch block is silent, so
it is always `none`). -/
structure AutoLocationResult where
  stateTrace : List LocationState
  hasRequestedLocation : Bool
  fieldWrite : Option AddressValue
  suggestions : Option (List Suggestion)
  geoRequest : Option GeoOptions
  userError : Option String
deriving DecidableEq

/-- The constant options of the geolocation request
(part_001 lines 128-132). -/
def geoRequestOptions : GeoOptions :=
  { enableHighAccuracy := true, timeout := 10000, maximumAge := 300000 }

/-- JS `address.split(",")[0] || address` (part_001 line 179). -/
def jsMainText (address : String) : String :=
  let h := (address.splitOn ",").headD ""
  if h = "" then address else h

/-- JS `address.split(",").slice(1).join(",").trim() || ""`
(part_001 line 180). -/
def jsSecondaryText (address : String) : String :=
  (String.intercalate "," ((address.splitOn ",").drop 1)).trim

/-- The single synthetic suggestion `handleAutoLocation` stores on success
(part_001 lines 173-188). -/
def detectedSuggestion (address : String) (placeId : String) : Suggestion :=
  { id := "detected-location"
    active := false
    index := 0
    formattedSuggestion := ⟨jsMainText address, jsSecondaryText address⟩
    description := address
    placeId := placeId
    matchedSubstrings := []
    terms := []
    types := [] }

/-- Shallow embedding of `handleAutoLocation` (part_001 lines 101-195):
guard on `autoDetectLocation` and `apiLoaded`, then
`requesting → detecting → geocoding → success`, with the catch block
resetting to `idle` on any rejected stage. The geocoder callback resolves
only when `status === "OK"` and the result list is non-empty
(part_001 lines 149-155). -/
def handleAutoLocation (autoDetectLocation apiLoaded : Bool) (env : GeoEnv) :
    AutoLocationResult :=
  if autoDetectLocation = false then
    -- console.warn and return: nothing else happens
    ⟨[], false, none, none, none, none⟩
  else if apiLoaded = false then
    -- console.error and return: nothing else happens
    ⟨[], false, none, none, none, none⟩
  else if env.geolocationSupported = false then
    -- the executor rejects before setLocationState("detecting"); catch → idle
    ⟨[.requesting, .idle], true, none, none, none, none⟩
  else
    match env.positionFix with
    | Except.error _ =>
        -- getCurrentPosition error callback; catch → idle
        ⟨[.requesting, .detecting, .idle], true, none, none,
          some geoRequestOptions, none⟩
    | Except.ok _pos =>
        match env.revResults with
        | some (r :: _rs) =>
            if env.revStatus = "OK" then
              ⟨[.requesting, .detecting, .geocoding, .success], true,
                some { address := some r.formatted_address, position := r.location },
                some [detectedSuggestion r.formatted_address (r.place_id.getD "")],
                some geoRequestOptions, none⟩
            else
              ⟨[.requesting, .detecting, .geocoding, .idle], true, none, none,
                some geoRequestOptions, none⟩
        | _ =>
            ⟨[.requesting, .detecting, .geocoding, .idle], true, none, none,
              some geoRequestOptions, none⟩

/-- A run resolves end to end: geolocation is available, a fix is obtained,
and the geocoder reports `"OK"` with at least one result. -/
def autoRunOk (env : GeoEnv) : Bool :=
  env.geolocationSupported &&
    (match env.positionFix with
     | Except.ok _ => true
     | Except.error _ => false) &&
    decide (env.revStatus = "OK") &&
    (match env.revResults with
     | some (_ :: _) => true
     | _ => false)

/-- Outcome of the `PlacesAutocomplete` `onError` callback
(part_001 lines 555-560): it clears the current suggestions and enables
the manual-input fallback for the rest of the session. -/
structure OnErrorResult where
  suggestionsCleared : Bool
  allowManualInput : Bool
deriving DecidableEq

/-- Embedding of the `onError` prop of `PlacesAutocomplete`
(part_001 lines 555-560). -/
def onPlacesError : OnErrorResult :=
  { suggestionsCleared := true, allowManualInput := true }

/-- Observable outcome of one `Select.onInputChange` call: the argument of
`handleFieldChange` if it was called, and the value forwarded to
`getInputProps().onChange` — i.e. to the autocomplete provider pipeline. -/
structure InputChangeResult where
  fieldWrite : Option AddressValue
  forwardedQuery : Option String
deriving DecidableEq

/-- Shallow embedding of the `Select.onInputChange` handler
(part_001 lines 627-647): in manual-input mode an `input-change` action
writes the raw text with the sentinel position to the field; the input is
always forwarded to `getInputProps().onChange` afterwards. -/
def onInputChange (allowManualInput : Bool) (inputValue : String)
    (action : String) : InputChangeResult :=
  { fieldWrite :=
      if allowManualInput && decide (action = "input-change") then
        some { address := some inputValue, position := sentinelPos }
      else
        none
    forwardedQuery := some inputValue }

/-- A browser `File` as MultiImageInput sees it: name, MIME type, byte size. -/
structure JFile where
  name : String
  type : String
  size : ℕ
deriving DecidableEq

/-- A file passes validation when its MIME type is accepted and its size is
at most `maxFileSize` megabytes (the complement of the two rejection tests
in `validateFiles`, multiImageInput.tsx lines 75-86). -/
def isValidFile (acceptedTypes : List String) (maxFileSize : ℕ)
    (f : JFile) : Bool :=
  acceptedTypes.contains f.type && f.size ≤ maxFileSize * 1024 * 1024

/-- Shallow embedding of `validateFiles` (multiImageInput.tsx lines 69-93):
the `forEach` loop pushes each file either onto `validFiles` or an error
message onto `newErrors`, preserving order. -/
def validateFiles (acceptedTypes : List String) (maxFileSize : ℕ) :
    List JFile → List JFile × List String
  | [] => ([], [])
  | f :: fs =>
      let rest := validateFiles acceptedTypes maxFileSize fs
      if acceptedTypes.contains f.type = false then
        (rest.1,
          (f.name ++ ": Invalid file type. Accepted: " ++
            String.intercalate ", " acceptedTypes) :: rest.2)
      else if f.size > maxFileSize * 1024 * 1024 then
        (rest.1,
          (f.name ++ ": File too large. Max: " ++ toString maxFileSize ++ "MB")
            :: rest.2)
      else
        (f :: rest.1, rest.2)

/-- Observable outcome of a drop / file-select event: the argument of
`field.onChange` if it was called, and the final local error list if
`setErrors` ran. -/
structure FilesEventResult where
  fieldWrite : Option (List JFile)
  errors : Option (List String)
deriving DecidableEq

/-- Shallow embedding of `handleDrop` (multiImageInput.tsx lines 107-130).
`current = none` models a non-array `field.value` (treated as `[]`). -/
def handleDrop (acceptedTypes : List String) (maxFileSize maxFiles : ℕ)
    (current : Option (List JFile)) (dropped : List JFile) : FilesEventResult :=
  if dropped.isEmpty then
    -- `if (!droppedFiles?.length) return;`
    ⟨none, none⟩
  else
    let v := validateFiles acceptedTypes maxFileSize dropped
    let cur := current.getD []
    if cur.length + v.1.length > maxFiles then
      ⟨none, some (v.2 ++ ["Maximum " ++ toString maxFiles ++ " files allowed"])⟩
    else
      ⟨some (cur ++ v.1), some v.2⟩

/-- Shallow embedding of `handleFileSelect` (multiImageInput.tsx
lines 133-154). `selected = none` models a null `e.target.files`; unlike
`handleDrop` there is no early return on an empty (but non-null) list. -/
def handleFileSelect (acceptedTypes : List String) (maxFileSize maxFiles : ℕ)
    (current : Option (List JFile)) (selected : Option (List JFile)) :
    FilesEventResult :=
  match selected with
  | none => ⟨none, none⟩
  | some files =>
      let v := validateFiles acceptedTypes maxFileSize files
      let cur := current.getD []
      if cur.length + v.1.length > maxFiles then
        ⟨none, some (v.2 ++ ["Maximum " ++ toString maxFiles ++ " files allowed"])⟩
      else
        ⟨some (cur ++ v.1), some v.2⟩

/-- Claimed transition relation of the geolocation state machine as the spec
states it: `idle → requesting → detecting → geocoding → success|error`.
This definition follows the words of the spec, to be compared with the
behaviour of `handleAutoLocation`. -/
def specClaimedStep : LocationState → LocationState → Bool
  | .idle, .requesting => true
  | .requesting, .detecting => true
  | .detecting, .geocoding => true
  | .geocoding, .success => true
  | .geocoding, .error => true
  | _, _ => false

/-- Transition relation the code actually realises: the forward chain
`idle → requesting → detecting → geocoding → success`, plus a reset to
`idle` from any in-flight stage on failure (the catch block). -/
def codeLocationStep : LocationState → LocationState → Bool
  | .idle, .requesting => true
  | .requesting, .detecting => true
  | .detecting, .geocoding => true
  | .geocoding, .success => true
  | .requesting, .idle => true
  | .detecting, .idle => true
  | .geocoding, .idle => true
  | _, _ => false

/-- The valid part of `validateFiles` is exactly the sublist of files
passing `isValidFile`. -/
theorem validateFiles_fst (ats : List String) (mfs : ℕ) (files : List JFile) :
    (validateFiles ats mfs files).1 =
      files.filter (fun f => isValidFile ats mfs f) := by
  induction files with
  | nil => rfl
  | cons f fs ih =>
      by_cases h1 : f.type ∈ ats
      · by_cases h2 : f.size ≤ mfs * 1024 * 1024
        · have h3 : ¬ mfs * 1024 * 1024 < f.size := by omega
          simp [validateFiles, isValidFile, h1, h2, h3, ih, List.filter]
        · have h3 : mfs * 1024 * 1024 < f.size := by omega
          simp [validateFiles, isValidFile, h1, h2, h3, ih, List.filter]
      · simp [validateFiles, isValidFile, h1, ih, List.filter]

/-- C1 counterexample: the claim asserts a non-sentinel position whenever the
provider resolves with at least one result, but a successful result whose
coordinate is exactly `{0,0}` makes `handleSelect` write the sentinel. -/
theorem claim1_counterexample :
    ("place-1" : String) ≠ "" ∧
    (handleSelect (some { description := "Null Island", placeId := "place-1" })
        (Except.ok [{ formatted_address := "Null Island, Gulf of Guinea",
                      location := some { lat := 0, lng := 0 } }])).position =
      sentinelPos := by
  exact ⟨by decide, rfl⟩

/-- C1 (amended): selecting a suggestion with a non-empty placeId, when the
provider resolves with at least one result whose first entry carries a
coordinate different from `{0,0}`, makes `handleSelect` call `onChange` with
the formatted address of that entry and that (non-sentinel) coordinate. -/
theorem claim1_thm (o : PlaceOption) (r : GeocodeResult)
    (rs : List GeocodeResult) (p : Position)
    (h1 : o.placeId ≠ "") (h2 : r.location = some p) (h3 : p ≠ sentinelPos) :
    handleSelect (some o) (Except.ok (r :: rs)) =
      { address := some r.formatted_address, position := p } ∧
    p ≠ sentinelPos := by
  refine ⟨?_, h3⟩
  simp [handleSelect, h1, h2]

/-- Witness for C1 at a concrete selection and provider response. -/
theorem claim1_witness :
    handleSelect (some { description := "MG Road", placeId := "place-2" })
        (Except.ok [{ formatted_address := "MG Road, Pune",
                      location := some { lat := 18, lng := 73 } }]) =
      { address := some "MG Road, Pune",
        position := { lat := 18, lng := 73 } } ∧
    ({ lat := 18, lng := 73 } : Position) ≠ sentinelPos :=
  claim1_thm { description := "MG Road", placeId := "place-2" }
    { formatted_address := "MG Road, Pune", location := some { lat := 18, lng := 73 } }
    [] { lat := 18, lng := 73 } (by decide) rfl (by decide)

/-- C3: with a non-empty placeId, a rejected `geocodeByPlaceId` or an empty
result list makes `handleSelect` fall back to the raw suggestion description
with the sentinel position. -/
theorem claim3_thm (o : PlaceOption) (g : Except Unit (List GeocodeResult))
    (h1 : o.placeId ≠ "")
    (h2 : g = Except.error () ∨ g = Except.ok []) :
    handleSelect (some o) g =
      { address := some o.description, position := sentinelPos } := by
  rcases h2 with h | h <;> subst h <;> simp [handleSelect, h1]

/-- Witness for C3 at a concrete selection with a rejected provider call. -/
theorem claim3_witness :
    handleSelect (some { description := "FC Road, Pune", placeId := "place-3" })
        (Except.error ()) =
      { address := some "FC Road, Pune", position := sentinelPos } :=
  claim3_thm { description := "FC Road, Pune", placeId := "place-3" }
    (Except.error ()) (by decide) (Or.inl rfl)

/-- C5: selecting an option whose placeId is the empty string clears the
bound value to an empty address with the sentinel position, and an empty
suggestion state writes an undefined address with the sentinel position. -/
theorem claim5_thm (o : PlaceOption) (h : o.placeId = "")
    (g g2 : Except Unit (List GeocodeResult)) :
    handleSelect (some o) g =
      { address := some "", position := sentinelPos } ∧
    syncFieldFromState [] g2 =
      { address := none, position := sentinelPos } := by
  exact ⟨by simp [handleSelect, h], rfl⟩

/-- Witness for C5 at a concrete empty option. -/
theorem claim5_witness :
    handleSelect (some { description := "old text", placeId := "" })
        (Except.error ()) =
      { address := some "", position := sentinelPos } ∧
    syncFieldFromState [] (Except.error ()) =
      { address := none, position := sentinelPos } :=
  claim5_thm { description := "old text", placeId := "" } rfl
    (Except.error ()) (Except.error ())

/-- C2: for every failing geolocation run — geolocation unsupported, no
position fix (denied, timeout, ...), or reverse-geocode failure — the state
trace ends in `idle`, `field.onChange` is never called, the suggestion list
is untouched, and no error message is surfaced. -/
theorem claim2_thm (env : GeoEnv) (h : autoRunOk env = false) :
    (handleAutoLocation true true env).stateTrace.getLast? =
        some LocationState.idle ∧
    (handleAutoLocation true true env).fieldWrite = none ∧
    (handleAutoLocation true true env).suggestions = none ∧
    (handleAutoLocation true true env).userError = none := by
  obtain ⟨sup, fix, st, rr⟩ := env
  cases sup with
  | false => simp [handleAutoLocation]
  | true =>
      cases fix with
      | error e => simp [handleAutoLocation]
      | ok p =>
          cases rr with
          | none => simp [handleAutoLocation]
          | some l =>
              cases l with
              | nil => simp [handleAutoLocation]
              | cons r rs =>
                  by_cases hst : st = "OK"
                  · simp [autoRunOk, hst] at h
                  · simp [handleAutoLocation, hst]

/-- Witness for C2 at a concrete failing run (geolocation unsupported). -/
theorem claim2_witness :
    (handleAutoLocation true true
        { geolocationSupported := false, positionFix := Except.error (),
          revStatus := "OK", revResults := none }).stateTrace.getLast? =
        some LocationState.idle ∧
    (handleAutoLocation true true
        { geolocationSupported := false, positionFix := Except.error (),
          revStatus := "OK", revResults := none }).fieldWrite = none ∧
    (handleAutoLocation true true
        { geolocationSupported := false, positionFix := Except.error (),
          revStatus := "OK", revResults := none }).suggestions = none ∧
    (handleAutoLocation true true
        { geolocationSupported := false, positionFix := Except.error (),
          revStatus := "OK", revResults := none }).userError = none :=
  claim2_thm
    { geolocationSupported := false, positionFix := Except.error (),
      revStatus := "OK", revResults := none } rfl

/-- C4: a successful geolocation run writes the formatted address and
coordinates of the first reverse-geocode result to the bound field and
replaces the suggestion list with exactly one synthetic entry whose
description equals that formatted address. -/
theorem claim4_thm (env : GeoEnv) (r : RevGeocodeResult)
    (rs : List RevGeocodeResult) (p : GeolocationPosition)
    (h1 : env.geolocationSupported = true)
    (h2 : env.positionFix = Except.ok p)
    (h3 : env.revStatus = "OK")
    (h4 : env.revResults = some (r :: rs)) :
    (handleAutoLocation true true env).fieldWrite =
        some { address := some r.formatted_address, position := r.location } ∧
    (∃ s : Suggestion,
        (handleAutoLocation true true env).suggestions = some [s] ∧
        s.description = r.formatted_address) := by
  refine ⟨?_, ⟨detectedSuggestion r.formatted_address (r.place_id.getD ""), ?_, rfl⟩⟩ <;>
    simp [handleAutoLocation, h1, h2, h3, h4]

/-- Witness for C4 at a concrete successful run. -/
theorem claim4_witness :
    (handleAutoLocation true true
        { geolocationSupported := true,
          positionFix := Except.ok { latitude := 18, longitude := 73 },
          revStatus := "OK",
          revResults := some [{ formatted_address := "JM Road, Pune",
                                location := { lat := 18, lng := 73 },
                                place_id := some "place-4" }] }).fieldWrite =
        some { address := some "JM Road, Pune",
               position := { lat := 18, lng := 73 } } ∧
    (∃ s : Klear.Suggestion,
        (handleAutoLocation true true
            { geolocationSupported := true,
              positionFix := Except.ok { latitude := 18, longitude := 73 },
              revStatus := "OK",
              revResults := some [{ formatted_address := "JM Road, Pune",
                                    location := { lat := 18, lng := 73 },
                                    place_id := some "place-4" }] }).suggestions =
          some [s] ∧
        s.description = "JM Road, Pune") :=
  claim4_thm
    { geolocationSupported := true,
      positionFix := Except.ok { latitude := 18, longitude := 73 },
      revStatus := "OK",
      revResults := some [{ formatted_address := "JM Road, Pune",
                            location := { lat := 18, lng := 73 },
                            place_id := some "place-4" }] }
    { formatted_address := "JM Road, Pune", location := { lat := 18, lng := 73 },
      place_id := some "place-4" }
    [] { latitude := 18, longitude := 73 } rfl rfl rfl rfl

/-- C8 counterexample: a run with geolocation unsupported produces the state
trace `requesting, idle`, whose step `requesting → idle` is not among the
transitions `idle → requesting → detecting → geocoding → success|error`
claimed by the spec; in particular no failing run ever reaches `error`. -/
theorem claim8_counterexample :
    ¬ List.Chain' (fun s t => specClaimedStep s t = true)
        (LocationState.idle ::
          (handleAutoLocation true true
            { geolocationSupported := false, positionFix := Except.error (),
              revStatus := "", revResults := none }).stateTrace) ∧
    LocationState.error ∉
      (handleAutoLocation true true
        { geolocationSupported := false, positionFix := Except.error (),
          revStatus := "", revResults := none }).stateTrace := by
  constructor
  · simp [handleAutoLocation, List.chain'_cons, specClaimedStep]
  · decide

/-- C8 (amended): every run of `handleAutoLocation` walks the chain
`idle → requesting → detecting → geocoding → success` in order without
skipping forward, except that a failure resets directly to `idle` from the
stage it was in; the `error` and `denied` members of `LocationState` are
never entered. -/
theorem claim8_thm (a b : Bool) (env : GeoEnv) :
    List.Chain' (fun s t => codeLocationStep s t = true)
      (LocationState.idle :: (handleAutoLocation a b env).stateTrace) ∧
    LocationState.error ∉ (handleAutoLocation a b env).stateTrace ∧
    LocationState.denied ∉ (handleAutoLocation a b env).stateTrace := by
  obtain ⟨sup, fix, st, rr⟩ := env
  cases a with
  | false => simp [handleAutoLocation]
  | true =>
      cases b with
      | false => simp [handleAutoLocation]
      | true =>
          cases sup with
          | false =>
              simp [handleAutoLocation, List.chain'_cons, codeLocationStep]
          | true =>
              cases fix with
              | error e =>
                  simp [handleAutoLocation, List.chain'_cons, codeLocationStep]
              | ok p =>
                  cases rr with
                  | none =>
                      simp [handleAutoLocation, List.chain'_cons,
                        codeLocationStep]
                  | some l =>
                      cases l with
                      | nil =>
                          simp [handleAutoLocation, List.chain'_cons,
                            codeLocationStep]
                      | cons r rs =>
                          by_cases hst : st = "OK" <;>
                            simp [handleAutoLocation, hst, List.chain'_cons,
                              codeLocationStep]

/-- C9: whenever `handleAutoLocation` issues a position request, the options
are exactly high accuracy enabled, a 10000 ms timeout and a 300000 ms
(5 minute) maximum cached-fix age; no other options are ever used. -/
theorem claim9_thm (a b : Bool) (env : GeoEnv) :
    (handleAutoLocation a b env).geoRequest = none ∨
    (handleAutoLocation a b env).geoRequest =
      some { enableHighAccuracy := true, timeout := 10000,
             maximumAge := 300000 } := by
  obtain ⟨sup, fix, st, rr⟩ := env
  cases a with
  | false => exact Or.inl rfl
  | true =>
      cases b with
      | false => exact Or.inl rfl
      | true =>
          cases sup with
          | false => exact Or.inl rfl
          | true =>
              cases fix with
              | error e => exact Or.inr rfl
              | ok p =>
                  cases rr with
                  | none => exact Or.inr rfl
                  | some l =>
                      cases l with
                      | nil => exact Or.inr rfl
                      | cons r rs =>
                          by_cases hst : st = "OK" <;>
                            simp [handleAutoLocation, hst, geoRequestOptions]

/-- C6 counterexample: after `onError` has enabled manual-input mode, a typed
input is still forwarded to `getInputProps().onChange` — the autocomplete
provider pipeline — so provider queries are not suppressed for the session as
the claim asserts. -/
theorem claim6_counterexample :
    onPlacesError.allowManualInput = true ∧
    (onInputChange true "12 MG Road" "input-change").forwardedQuery =
      some "12 MG Road" := by
  exact ⟨rfl, rfl⟩

/-- C6 (amended): after the provider reports an error (`onError` enables
manual-input mode), every subsequently typed input value is written directly
to the bound field as the raw text with the sentinel position, and no geocode
runs on that path; the typed value is however still forwarded to the
autocomplete provider pipeline rather than suppressed. -/
theorem claim6_thm (text action : String) (h : action = "input-change") :
    (onInputChange onPlacesError.allowManualInput text action).fieldWrite =
        some { address := some text, position := sentinelPos } ∧
    (onInputChange onPlacesError.allowManualInput text action).forwardedQuery =
        some text := by
  subst h
  exact ⟨by simp [onInputChange, onPlacesError], rfl⟩

/-- Witness for C6 at a concrete typed input. -/
theorem claim6_witness :
    (onInputChange onPlacesError.allowManualInput "Baner Road" "input-change").fieldWrite =
        some { address := some "Baner Road", position := sentinelPos } ∧
    (onInputChange onPlacesError.allowManualInput "Baner Road" "input-change").forwardedQuery =
        some "Baner Road" :=
  claim6_thm "Baner Road" "input-change" rfl

/-- C7: every write of an `AddressValue` to the bound field, on every path —
selection, manual entry, geolocation, empty suggestion state — carries a
complete position which is the sentinel `{0,0}` unless a coordinate was
resolved by the provider, in which case it is exactly that coordinate. -/
theorem claim7_thm :
    (∀ (opt : Option PlaceOption) (g : Except Unit (List GeocodeResult)),
        (handleSelect opt g).position = sentinelPos ∨
          ∃ r rs, g = Except.ok (r :: rs) ∧
            r.location = some (handleSelect opt g).position) ∧
    (∀ (m : Bool) (text action : String),
        (onInputChange m text action).fieldWrite = none ∨
          (onInputChange m text action).fieldWrite =
            some { address := some text, position := sentinelPos }) ∧
    (∀ (a b : Bool) (env : GeoEnv),
        (handleAutoLocation a b env).fieldWrite = none ∨
          ∃ r rs, env.revResults = some (r :: rs) ∧
            (handleAutoLocation a b env).fieldWrite =
              some { address := some r.formatted_address,
                     position := r.location }) ∧
    (∀ g : Except Unit (List GeocodeResult),
        (syncFieldFromState [] g).position = sentinelPos) := by
  refine ⟨?_, ?_, ?_, fun g => rfl⟩
  · intro opt g
    match opt with
    | none => exact Or.inl rfl
    | some o =>
        by_cases h : o.placeId = ""
        · exact Or.inl (by simp [handleSelect, h])
        · match g with
          | Except.error _ => exact Or.inl (by simp [handleSelect, h])
          | Except.ok [] => exact Or.inl (by simp [handleSelect, h])
          | Except.ok (r :: rs) =>
              match hloc : r.location with
              | none => exact Or.inl (by simp [handleSelect, h, hloc])
              | some p =>
                  exact Or.inr ⟨r, rs, rfl, by simp [handleSelect, h, hloc]⟩
  · intro m text action
    by_cases h : m && decide (action = "input-change")
    · exact Or.inr (by simp [onInputChange, h])
    · exact Or.inl (by simp only [onInputChange, if_neg h])
  · intro a b env
    obtain ⟨sup, fix, st, rr⟩ := env
    cases a with
    | false => exact Or.inl rfl
    | true =>
        cases b with
        | false => exact Or.inl rfl
        | true =>
            cases sup with
            | false => exact Or.inl rfl
            | true =>
                cases fix with
                | error e => exact Or.inl rfl
                | ok p =>
                    cases rr with
                    | none => exact Or.inl rfl
                    | some l =>
                        cases l with
                        | nil => exact Or.inl rfl
                        | cons r rs =>
                            by_cases hst : st = "OK"
                            · exact Or.inr ⟨r, rs, rfl,
                                by simp [handleAutoLocation, hst]⟩
                            · exact Or.inl (by simp [handleAutoLocation, hst])

/-- C10: a drop or file-select event changes the bound file list only by
appending exactly the incoming files whose MIME type is accepted and whose
size is within the limit, and leaves the bound value entirely unchanged
whenever appending those valid files would exceed `maxFiles`. -/
theorem claim10_thm (ats : List String) (mfs mf : ℕ)
    (cur : Option (List JFile)) (inc : List JFile) :
    ((handleDrop ats mfs mf cur inc).fieldWrite = none ∨
      (handleDrop ats mfs mf cur inc).fieldWrite =
        some (cur.getD [] ++ inc.filter (fun f => isValidFile ats mfs f))) ∧
    ((cur.getD []).length +
        (inc.filter (fun f => isValidFile ats mfs f)).length > mf →
      (handleDrop ats mfs mf cur inc).fieldWrite = none) ∧
    ((handleFileSelect ats mfs mf cur (some inc)).fieldWrite = none ∨
      (handleFileSelect ats mfs mf cur (some inc)).fieldWrite =
        some (cur.getD [] ++ inc.filter (fun f => isValidFile ats mfs f))) ∧
    ((cur.getD []).length +
        (inc.filter (fun f => isValidFile ats mfs f)).length > mf →
      (handleFileSelect ats mfs mf cur (some inc)).fieldWrite = none) := by
  have hv := validateFiles_fst ats mfs inc
  by_cases hover : (cur.getD []).length +
      (inc.filter (fun f => isValidFile ats mfs f)).length > mf
  · by_cases hemp : inc.isEmpty
    · refine ⟨Or.inl ?_, fun _ => ?_, Or.inl ?_, fun _ => ?_⟩ <;>
        simp [handleDrop, handleFileSelect, hemp, hv, hover]
    · refine ⟨Or.inl ?_, fun _ => ?_, Or.inl ?_, fun _ => ?_⟩ <;>
        simp [handleDrop, handleFileSelect, hemp, hv, hover]
  · by_cases hemp : inc.isEmpty
    · have hinc : inc = [] := List.isEmpty_iff.mp hemp
      subst hinc
      have hle : ¬ mf < (cur.getD []).length := by simpa using hover
      exact ⟨Or.inl rfl, fun hab => absurd hab hover,
        Or.inr (by simp [handleFileSelect, hv, hle]),
        fun hab => absurd hab hover⟩
    · refine ⟨Or.inr ?_, fun hab => absurd hab hover, Or.inr ?_,
        fun hab => absurd hab hover⟩ <;>
        simp [handleDrop, handleFileSelect, hemp, hv, hover]

/-- Witness for C10: with two files already bound and a limit of one, a valid
incoming file changes nothing on either event path. -/
theorem claim10_witness :
    (handleDrop ["image/png"] 1 1
        (some [{ name := "a.png", type := "image/png", size := 10 },
               { name := "b.png", type := "image/png", size := 10 }])
        [{ name := "c.png", type := "image/png", size := 10 }]).fieldWrite =
      none ∧
    (handleFileSelect ["image/png"] 1 1
        (some [{ name := "a.png", type := "image/png", size := 10 },
               { name := "b.png", type := "image/png", size := 10 }])
        (some [{ name := "c.png", type := "image/png", size := 10 }])).fieldWrite =
      none :=
  ⟨(claim10_thm ["image/png"] 1 1
      (some [{ name := "a.png", type := "image/png", size := 10 },
             { name := "b.png", type := "image/png", size := 10 }])
      [{ name := "c.png", type := "image/png", size := 10 }]).2.1 (by decide),
   (claim10_thm ["image/png"] 1 1
      (some [{ name := "a.png", type := "image/png", size := 10 },
             { name := "b.png", type := "image/png", size := 10 }])
      [{ name := "c.png", type := "image/png", size := 10 }]).2.2.2 (by decide)⟩

end Klear
